import Mathlib

/-!
Shallow embedding of the Yeastar-to-n8n bridge (Node/Express, `src/server.js`
plus the variant implementations shipped in the repository) and proofs about
its credential management, webhook normalization, recording retrieval,
audio validation and retry orchestration.

Network interactions are modelled by explicit outcome values (an oracle of
responses consumed by each attempt); JavaScript truthiness on possibly-absent
string fields is modelled by `Option String` together with `jsTruthyOpt`.
-/

namespace YeastarBridge

/-- JS truthiness of a possibly-absent string value: absent (`undefined`/`null`)
and the empty string are falsy, every other string is truthy. -/
def jsTruthyOpt : Option String → Bool
  | none => false
  | some s => !(s == "")

/-- JS `a || b` on possibly-absent string values. -/
def jsOrO (a b : Option String) : Option String :=
  if jsTruthyOpt a then a else b

/-- JS `a || d` where `d` is a present default string. -/
def jsOrD (a : Option String) (d : String) : String :=
  match a with
  | some s => if s == "" then d else s
  | none => d

/-- JS truthiness of a possibly-absent numeric field (`metaData.errcode`):
absent and `0` are falsy. -/
def jsTruthyNumOpt : Option Nat → Bool
  | none => false
  | some c => !(c == 0)

/-- Prefix test on character lists (needle is a prefix of hay). -/
def subAt : List Char → List Char → Bool
  | [], _ => true
  | _ :: _, [] => false
  | c :: cs, d :: ds => c == d && subAt cs ds

/-- Substring test on character lists. -/
def hasSubList (needle : List Char) : List Char → Bool
  | [] => needle.isEmpty
  | c :: rest => subAt needle (c :: rest) || hasSubList needle rest

/-- JS `hay.includes(needle)`. -/
def strIncludes (hay needle : String) : Bool :=
  hasSubList needle.toList hay.toList

/-- Relevant fields of the `CONFIG` object built from environment variables
(`src/server.js` lines 14-27). -/
structure Config where
  YEASTAR_BASE_URL : String
  TOKEN_REFRESH_ENABLED : Bool
  OPENAI_API_KEY : String
  N8N_WEBHOOK_URL : String

/-- The process-wide mutable `tokenState` object (`src/server.js` lines 30-35). -/
structure TokenState where
  token : String
  lastRefresh : Option String
  refreshAttempts : Nat
  isRefreshing : Bool

/-- Outcome of one HTTP interaction with the `get_token` endpoint, as observed
by `refreshYeastarToken`: an abort/timeout, a non-ok HTTP response, or a parsed
JSON body carrying `errcode`, `errmsg` and an optional `access_token`. -/
inductive TokenFetchOutcome
  | timeout
  | httpErr (status : Nat) (body : String)
  | apiResp (errcode : Nat) (errmsg : String) (accessToken : Option String)

/-- A `setTimeout` registration made by `refreshYeastarToken`: a future call
to itself after `delayMs` milliseconds, with the given retry flag. -/
inductive Scheduled
  | refreshAt (delayMs : Nat) (isRetry : Bool)
deriving DecidableEq

/-- The `catch` branch of `refreshYeastarToken` (`src/server.js` lines 116-131):
increment the failure counter; below the ceiling of 3, schedule one retry with
capped exponential backoff; at the ceiling, reset the counter and do not retry.
The `finally` block clears `isRefreshing` in every case. -/
def refreshFailure (st : TokenState) : TokenState × List Scheduled :=
  let a := st.refreshAttempts + 1
  if a < 3 then
    ({ st with refreshAttempts := a, isRefreshing := false },
     [Scheduled.refreshAt (min (1000 * 2 ^ a) 30000) true])
  else
    ({ st with refreshAttempts := 0, isRefreshing := false }, [])

/-- `refreshYeastarToken(isRetry)` (`src/server.js` lines 57-135) as a state
transition on `tokenState`, parametrized by the outcome of the single
`get_token` request it performs. Returns the new token state and the list of
`setTimeout` registrations it made. Early returns: refresh disabled, or a
non-retry call while a refresh is in progress. On success: store the token,
stamp `lastRefresh`, zero the failure counter and schedule the next refresh
25 minutes out. Any throw (HTTP error, nonzero `errcode`, missing
`access_token`, timeout) lands in the `catch` branch `refreshFailure`. -/
def refreshYeastarToken (isRetry : Bool) (cfg : Config) (st : TokenState)
    (now : String) (outcome : TokenFetchOutcome) : TokenState × List Scheduled :=
  if !cfg.TOKEN_REFRESH_ENABLED then (st, [])
  else if st.isRefreshing && !isRetry then (st, [])
  else
    match outcome with
    | TokenFetchOutcome.timeout => refreshFailure st
    | TokenFetchOutcome.httpErr _ _ => refreshFailure st
    | TokenFetchOutcome.apiResp ec _ tok =>
      if !(ec == 0) then refreshFailure st
      else
        match tok with
        | none => refreshFailure st
        | some t =>
          if t == "" then refreshFailure st
          else
            ({ token := t, lastRefresh := some now, refreshAttempts := 0,
               isRefreshing := false },
             [Scheduled.refreshAt (25 * 60 * 1000) false])

/-- An outcome makes `refreshYeastarToken` take its `catch` branch. -/
def fetchFails : TokenFetchOutcome → Bool
  | TokenFetchOutcome.timeout => true
  | TokenFetchOutcome.httpErr _ _ => true
  | TokenFetchOutcome.apiResp ec _ tok =>
    !(ec == 0) || (match tok with | none => true | some t => t == "")

/-- The inbound webhook payload as a string-keyed record over every key that
any of the repository's `extractCallData` variants probes. An absent key is
`none`; JS truthiness (empty string falsy) is applied by the probes. -/
structure Payload where
  recording : Option String
  recordingfile : Option String
  recording_url : Option String
  recording_id : Option String
  recordingid : Option String
  call_id : Option String
  callid : Option String
  uniqueid : Option String
  call_duration : Option String
  duration : Option String
  billsec : Option String
  talk_duration : Option String
  call_from : Option String
  caller_number : Option String
  src : Option String
  from_ : Option String
  call_to : Option String
  callee_number : Option String
  dst : Option String
  to_ : Option String
  time_start : Option String
  start_time : Option String
  calldate : Option String
  end_time : Option String
  status : Option String
  disposition : Option String
  type : Option String
  dst_trunk_name : Option String
  src_trunk_name : Option String

/-- A payload with every key absent. -/
def emptyPayload : Payload :=
  { recording := none, recordingfile := none, recording_url := none,
    recording_id := none, recordingid := none, call_id := none, callid := none,
    uniqueid := none, call_duration := none, duration := none, billsec := none,
    talk_duration := none, call_from := none, caller_number := none, src := none,
    from_ := none, call_to := none, callee_number := none, dst := none,
    to_ := none, time_start := none, start_time := none, calldate := none,
    end_time := none, status := none, disposition := none, type := none,
    dst_trunk_name := none, src_trunk_name := none }

/-- Canonical call record built by `extractCallData` in `src/server.js`
(lines 261-307); `src/unnamed/part_002` builds the same shape. -/
structure CallRecord where
  call_id : String
  recording_filename : Option String
  duration : String
  talk_duration : String
  caller_number : String
  callee_number : String
  start_time : String
  end_time : String
  status : String
  call_type : String
  trunk_name : String
  hasRecording : Bool

/-- `extractCallData` from `src/server.js` lines 261-307. `now` stands for
`new Date().toISOString()` evaluated at call time. -/
def extractCallData (p : Payload) (now : String) : CallRecord :=
  let recordingFileName := jsOrO p.recording (jsOrO p.recordingfile none)
  { call_id := jsOrD p.call_id (jsOrD p.callid (jsOrD p.uniqueid "unknown")),
    recording_filename := recordingFileName,
    duration := jsOrD p.call_duration (jsOrD p.duration (jsOrD p.billsec "0")),
    talk_duration := jsOrD p.talk_duration "0",
    caller_number := jsOrD p.call_from (jsOrD p.caller_number (jsOrD p.src "")),
    callee_number := jsOrD p.call_to (jsOrD p.callee_number (jsOrD p.dst "")),
    start_time := jsOrD p.time_start (jsOrD p.start_time now),
    end_time := jsOrD p.end_time now,
    status := jsOrD p.status "ANSWERED",
    call_type := jsOrD p.type "Unknown",
    trunk_name := jsOrD p.dst_trunk_name (jsOrD p.src_trunk_name ""),
    hasRecording := jsTruthyOpt recordingFileName }

/-- Call record built by `extractCallData` in `src/unnamed/part_003`
(lines 214-259), which extracts `recording_url` and `recording_id` instead of
a filename. -/
structure CallRecord3 where
  call_id : String
  recording_url : Option String
  recording_id : Option String
  duration : String
  caller_number : String
  callee_number : String
  start_time : String
  end_time : String
  status : String
  hasRecording : Bool

/-- `extractCallData` from `src/unnamed/part_003` lines 214-259. Note that its
`hasRecording` probes the raw payload keys `recording_url`/`recording_id`
directly, not the alias-resolved extracted fields. -/
def extractCallData3 (p : Payload) (now : String) : CallRecord3 :=
  { call_id := jsOrD p.call_id (jsOrD p.callid (jsOrD p.uniqueid "unknown")),
    recording_url := jsOrO p.recording_url (jsOrO p.recordingfile none),
    recording_id := jsOrO p.recording_id (jsOrO p.recordingid none),
    duration := jsOrD p.duration (jsOrD p.billsec "0"),
    caller_number := jsOrD p.caller_number (jsOrD p.src (jsOrD p.from_ "")),
    callee_number := jsOrD p.callee_number (jsOrD p.dst (jsOrD p.to_ "")),
    start_time := jsOrD p.start_time (jsOrD p.calldate now),
    end_time := jsOrD p.end_time now,
    status := jsOrD p.status (jsOrD p.disposition "ANSWERED"),
    hasRecording := jsTruthyOpt p.recording_url || jsTruthyOpt p.recording_id }

/-- A downloaded Node `Buffer`, abstracted to the two observations the code
makes of it: its byte length and its UTF-8 decoding (`buffer.toString`). -/
structure Buffer where
  len : Nat
  utf8 : String
deriving DecidableEq

/-- The inline size validation applied to the downloaded audio buffer in
`downloadRecordingOpenAPI` (`src/server.js` lines 407-411, identically
`src/unnamed/part_002` lines 245-248): reject buffers under 1000 bytes with
the decoded body text in the error message; no other check. -/
def validateAudioInline (buf : Buffer) : Except String Buffer :=
  if buf.len < 1000 then Except.error ("Invalid audio file: " ++ buf.utf8)
  else Except.ok buf

/-- `validateAudioBuffer` from the v3.1 variant embedded in `src/README.md`
(lines 883-910): reject below `MIN_AUDIO_SIZE` and above `MAX_AUDIO_SIZE`
(defaults 1000 and 26214400); the magic-byte format detection that follows is
warn-only and never rejects, so acceptance is decided by size alone. -/
def validateAudioBuffer (minSize maxSize : Nat) (buf : Buffer) : Except String Unit :=
  if buf.len < minSize then
    Except.error ("Audio file too small: " ++ toString buf.len ++
      " bytes (minimum: " ++ toString minSize ++ ")")
  else if buf.len > maxSize then
    Except.error ("Audio file too large: " ++ toString buf.len ++
      " bytes (maximum: " ++ toString maxSize ++ ")")
  else Except.ok ()

/-- Outcome of the step-1 (`recording/download` resolve) request of the
two-step protocol: abort/timeout, non-ok HTTP response, or a parsed JSON body
with optional `errcode`, `errmsg` and optional `download_resource_url`. -/
inductive Step1Outcome
  | timeout
  | httpErr (status : Nat) (body : String)
  | ok (errcode : Option Nat) (errmsg : String) (downloadResourceUrl : Option String)

/-- Outcome of the step-2 (resource URL fetch) request. -/
inductive Step2Outcome
  | timeout
  | httpErr (status : Nat) (body : String)
  | ok (buf : Buffer)

/-- The environment's responses for one pass of the two-step sequence: the
step-1 response, the `get_token` response consumed if that pass triggers a
credential refresh, and the step-2 response consumed if step 1 yields a
usable resource URL. -/
structure Attempt where
  step1 : Step1Outcome
  refreshOutcome : TokenFetchOutcome
  step2 : Step2Outcome

/-- An observable outbound call made while handling a webhook. -/
inductive Effect
  | step1Request (token : String)
  | tokenRefreshRequest
  | step2Request (token : String)
  | transcriptionRequest
  | forwardRequest
deriving DecidableEq

/-- Number of step-1 resolve requests in an effect trace, i.e. how many times
the two-step download sequence was started. -/
def countStep1 : List Effect → Nat
  | [] => 0
  | Effect.step1Request _ :: t => countStep1 t + 1
  | Effect.tokenRefreshRequest :: t => countStep1 t
  | Effect.step2Request _ :: t => countStep1 t
  | Effect.transcriptionRequest :: t => countStep1 t
  | Effect.forwardRequest :: t => countStep1 t

/-- String rendering of a truthy `errcode` for the thrown message. -/
def errcodeStr : Option Nat → String
  | some c => toString c
  | none => ""

/-- `downloadRecordingOpenAPI` (`src/server.js` lines 310-430) as a recursion
over the environment's response list. Each pass consumes one `Attempt`; the
token-expiry branches (step-1 HTTP 401 or body containing TOKEN EXPIRED, or
in-body errcode 10004, with auto-refresh enabled) await `refreshYeastarToken`
with the retry flag and then re-enter the whole function on the remaining
responses — the source has no single-retry bound. Returns the result, the
final token state and the trace of outbound requests. The empty-environment
case stands for a network that never answers and cannot arise in the theorems
below. -/
def downloadGo (cfg : Config) (cd : CallRecord) (now : String) :
    TokenState → List Attempt → Except String Buffer × TokenState × List Effect
  | st, [] =>
    if !(jsTruthyOpt cd.recording_filename) then
      (Except.error "No recording filename provided", st, [])
    else if st.token == "" then
      (Except.error "No API token available", st, [])
    else
      (Except.error "NETWORK ENVIRONMENT EXHAUSTED", st, [])
  | st, att :: rest =>
    if !(jsTruthyOpt cd.recording_filename) then
      (Except.error "No recording filename provided", st, [])
    else if st.token == "" then
      (Except.error "No API token available", st, [])
    else
      match att.step1 with
      | Step1Outcome.timeout =>
        (Except.error "Download timeout", st, [Effect.step1Request st.token])
      | Step1Outcome.httpErr status body =>
        if status == 401 || strIncludes body "TOKEN EXPIRED" then
          if cfg.TOKEN_REFRESH_ENABLED then
            let st1 := (refreshYeastarToken true cfg st now att.refreshOutcome).1
            let r := downloadGo cfg cd now st1 rest
            (r.1, r.2.1,
             Effect.step1Request st.token :: Effect.tokenRefreshRequest :: r.2.2)
          else
            (Except.error "Token expired and auto-refresh is disabled", st,
             [Effect.step1Request st.token])
        else
          (Except.error ("Failed to get download URL: HTTP " ++ toString status ++
            " - " ++ body), st, [Effect.step1Request st.token])
      | Step1Outcome.ok errcode errmsg url =>
        if jsTruthyNumOpt errcode then
          if errcode == some 10004 && cfg.TOKEN_REFRESH_ENABLED then
            let st1 := (refreshYeastarToken true cfg st now att.refreshOutcome).1
            let r := downloadGo cfg cd now st1 rest
            (r.1, r.2.1,
             Effect.step1Request st.token :: Effect.tokenRefreshRequest :: r.2.2)
          else
            (Except.error ("Yeastar API error " ++ errcodeStr errcode ++ ": " ++ errmsg),
             st, [Effect.step1Request st.token])
        else
          if !(jsTruthyOpt url) then
            (Except.error "No download_resource_url in response", st,
             [Effect.step1Request st.token])
          else
            match att.step2 with
            | Step2Outcome.timeout =>
              (Except.error "Download timeout", st,
               [Effect.step1Request st.token, Effect.step2Request st.token])
            | Step2Outcome.httpErr s2 b2 =>
              (Except.error ("Download failed: HTTP " ++ toString s2 ++ " - " ++ b2),
               st, [Effect.step1Request st.token, Effect.step2Request st.token])
            | Step2Outcome.ok buf =>
              match validateAudioInline buf with
              | Except.error e =>
                (Except.error e, st,
                 [Effect.step1Request st.token, Effect.step2Request st.token])
              | Except.ok b =>
                (Except.ok b, st,
                 [Effect.step1Request st.token, Effect.step2Request st.token])

/-- Entry point matching the source function's signature. -/
def downloadRecordingOpenAPI (cfg : Config) (cd : CallRecord) (st : TokenState)
    (now : String) (env : List Attempt) : Except String Buffer × TokenState × List Effect :=
  downloadGo cfg cd now st env

/-- A step-1 outcome the source treats as a token-expiry signal (with refresh
enabled): HTTP non-ok with status 401 or a body containing TOKEN EXPIRED, or
an in-body application errcode 10004. -/
def isExpiry1 : Step1Outcome → Bool
  | Step1Outcome.timeout => false
  | Step1Outcome.httpErr status body => status == 401 || strIncludes body "TOKEN EXPIRED"
  | Step1Outcome.ok errcode _ _ => errcode == some 10004

/-- An attempt whose step 1 returns a usable resource URL and whose step 2
returns a buffer passing the inline size check. -/
def isCleanSuccess (att : Attempt) : Bool :=
  match att.step1 with
  | Step1Outcome.ok errcode _ url =>
    !(jsTruthyNumOpt errcode) && jsTruthyOpt url &&
      (match att.step2 with
       | Step2Outcome.ok buf => decide (1000 ≤ buf.len)
       | _ => false)
  | _ => false

/-- The buffer delivered by a clean-success attempt. -/
def successBuf (att : Attempt) : Buffer :=
  match att.step2 with
  | Step2Outcome.ok buf => buf
  | _ => { len := 0, utf8 := "" }

/-- Structured transcript returned by the Whisper endpoint. -/
structure Transcription where
  text : Option String
  language : Option String
  durationSec : Option Nat

/-- `transcribeAudio` (`src/server.js` lines 453-514), abstracted over the
network outcome: fails before any request when `OPENAI_API_KEY` is empty,
otherwise performs exactly one transcription request. -/
def transcribeAudio (cfg : Config) (outcome : Except String Transcription) :
    Except String Transcription × List Effect :=
  if cfg.OPENAI_API_KEY == "" then
    (Except.error "OPENAI_API_KEY not configured", [])
  else (outcome, [Effect.transcriptionRequest])

/-- `sendToN8n` (`src/server.js` lines 516-573): skipped without a request when
`N8N_WEBHOOK_URL` is empty, otherwise performs exactly one forward request. -/
def sendToN8n (cfg : Config) (outcome : Except String Unit) :
    Except String Unit × List Effect :=
  if cfg.N8N_WEBHOOK_URL == "" then (Except.ok (), [])
  else (outcome, [Effect.forwardRequest])

/-- `processRecordingAsync` (`src/server.js` lines 433-451): transcribe, then
forward to n8n when configured; its failures are only logged, so only the
effect trace is observable. -/
def processRecordingAsync (cfg : Config) (tro : Except String Transcription)
    (fwo : Except String Unit) : List Effect :=
  match transcribeAudio cfg tro with
  | (Except.error _, effs) => effs
  | (Except.ok _, effs) =>
    if cfg.N8N_WEBHOOK_URL == "" then effs
    else effs ++ (sendToN8n cfg fwo).2

/-- The JSON answer of the webhook route, reduced to the fields the claims
mention. -/
structure WebhookResponse where
  httpStatus : Nat
  success : Bool
  message : String
  call_id : String
deriving DecidableEq

/-- The `POST /yeastar-webhook` handler (`src/server.js` lines 178-231):
normalize the payload; without a recording reference answer success and stop;
otherwise run the two-step download, answer, and process asynchronously. -/
def handleWebhook (cfg : Config) (st : TokenState) (p : Payload) (now : String)
    (env : List Attempt) (tro : Except String Transcription)
    (fwo : Except String Unit) : WebhookResponse × TokenState × List Effect :=
  let cd := extractCallData p now
  if !cd.hasRecording then
    ({ httpStatus := 200, success := true, message := "No recording to process",
       call_id := cd.call_id }, st, [])
  else
    match downloadGo cfg cd now st env with
    | (Except.error e, st2, effs) =>
      ({ httpStatus := 500, success := false, message := e, call_id := cd.call_id },
       st2, effs)
    | (Except.ok _, st2, effs) =>
      ({ httpStatus := 200, success := true,
         message := "Recording downloaded, processing...", call_id := cd.call_id },
       st2, effs ++ processRecordingAsync cfg tro fwo)

/-- The non-retryable allowlist of `retryOperation` (README v3.1 variant,
`src/README.md` lines 1125-1126): configuration-missing error messages. -/
def nonRetryableMsg (e : String) : Bool :=
  strIncludes e "not configured" || strIncludes e "Invalid configuration"

/-- Body of `retryOperation`'s `for` loop (README v3.1 variant,
`src/README.md` lines 1113-1141), recursing on the number of remaining loop
iterations; `a` is the 1-based attempt counter, `le` the last error message.
Returns the result, the number of invocations of the operation, and the list
of backoff delays waited. The operation is modelled as a function from the
attempt number to that invocation's outcome. -/
def retryFrom {α : Type} (op : Nat → Except String α) (name : String) (maxR : Nat) :
    Nat → Nat → String → Except String α × Nat × List Nat
  | _, 0, le =>
    (Except.error (name ++ " failed after " ++ toString maxR ++ " attempts: " ++ le),
     0, [])
  | a, r + 1, _le =>
    match op a with
    | Except.ok v => (Except.ok v, 1, [])
    | Except.error e =>
      if a < maxR then
        if nonRetryableMsg e then (Except.error e, 1, [])
        else
          let d := min (1000 * 2 ^ (a - 1)) 10000
          let r2 := retryFrom op name maxR (a + 1) r e
          (r2.1, r2.2.1 + 1, d :: r2.2.2)
      else
        (Except.error (name ++ " failed after " ++ toString maxR ++ " attempts: " ++ e),
         1, [])

/-- `retryOperation(operation, maxRetries, operationName)`: start the loop at
attempt 1 with `maxRetries` iterations available. -/
def retryOperation {α : Type} (op : Nat → Except String α) (name : String)
    (maxR : Nat) : Except String α × Nat × List Nat :=
  retryFrom op name maxR 1 maxR ""

/-- A configuration with auto-refresh enabled and all collaborators set. -/
def cfgOn : Config :=
  { YEASTAR_BASE_URL := "https://pbx.example", TOKEN_REFRESH_ENABLED := true,
    OPENAI_API_KEY := "sk-key", N8N_WEBHOOK_URL := "https://n8n.example/hook" }

/-- A configuration with auto-refresh disabled. -/
def cfgOff : Config :=
  { YEASTAR_BASE_URL := "https://pbx.example", TOKEN_REFRESH_ENABLED := false,
    OPENAI_API_KEY := "sk-key", N8N_WEBHOOK_URL := "https://n8n.example/hook" }

/-- Fresh token state holding a static token, no refresh in progress. -/
def stIdle : TokenState :=
  { token := "tok0", lastRefresh := none, refreshAttempts := 0, isRefreshing := false }

/-- Token state with a refresh currently in flight. -/
def stBusy : TokenState :=
  { token := "tok0", lastRefresh := none, refreshAttempts := 0, isRefreshing := true }

/-- Token state whose held token is the empty string. -/
def stNoToken : TokenState :=
  { token := "", lastRefresh := none, refreshAttempts := 0, isRefreshing := false }

/-- A call record carrying a recording filename. -/
def cdRec : CallRecord :=
  { call_id := "123", recording_filename := some "rec.wav", duration := "30",
    talk_duration := "25", caller_number := "100", callee_number := "200",
    start_time := "S", end_time := "E", status := "ANSWERED",
    call_type := "Inbound", trunk_name := "", hasRecording := true }

/-- A well-sized audio buffer. -/
def bufOk : Buffer := { len := 5000, utf8 := "" }

/-- An attempt whose step 1 answers HTTP 401 with a TOKEN EXPIRED body and
whose refresh succeeds with a new token. -/
def attExpiry : Attempt :=
  { step1 := Step1Outcome.httpErr 401 "TOKEN EXPIRED",
    refreshOutcome := TokenFetchOutcome.apiResp 0 "" (some "tokN"),
    step2 := Step2Outcome.ok bufOk }

/-- An attempt that resolves a resource URL and downloads a valid buffer. -/
def attClean : Attempt :=
  { step1 := Step1Outcome.ok (some 0) "" (some "/rec/123"),
    refreshOutcome := TokenFetchOutcome.apiResp 0 "" (some "tokN"),
    step2 := Step2Outcome.ok bufOk }

/-- A sample transcription result. -/
def trEx : Transcription :=
  { text := some "hello", language := some "ar", durationSec := some 30 }

/-- A payload whose only recording reference arrives under the alias key
`recordingfile`. -/
def pAlias : Payload := { emptyPayload with recordingfile := some "x.wav" }

/-- An operation failing twice with a retryable error, then succeeding. -/
def opFlaky : Nat → Except String Nat :=
  fun i => if i ≤ 2 then Except.error "HTTP 500 from server" else Except.ok 42

/-- An operation that always fails with a configuration-missing message. -/
def opMissingKey : Nat → Except String Nat :=
  fun _ => Except.error "OPENAI_API_KEY not configured"

lemma refreshFailure_token (st : TokenState) : (refreshFailure st).1.token = st.token := by
  unfold refreshFailure
  by_cases h : st.refreshAttempts + 1 < 3 <;> simp [h]

lemma refreshFailure_isRefreshing (st : TokenState) :
    (refreshFailure st).1.isRefreshing = false := by
  unfold refreshFailure
  by_cases h : st.refreshAttempts + 1 < 3 <;> simp [h]

/-- A refresh invoked with the retry flag never empties the token: every
failure path leaves `token` untouched and the success path stores a
truthiness-checked token. -/
lemma refresh_preserves_token_ne (cfg : Config) (st : TokenState) (now : String)
    (o : TokenFetchOutcome) (h : st.token ≠ "") :
    (refreshYeastarToken true cfg st now o).1.token ≠ "" := by
  unfold refreshYeastarToken
  cases hEn : cfg.TOKEN_REFRESH_ENABLED with
  | false => simpa using h
  | true =>
    simp only [hEn, Bool.not_true, Bool.and_false, Bool.false_eq_true, if_false,
      Bool.not_false, if_true]
    cases o with
    | timeout => simpa [refreshFailure_token] using h
    | httpErr s b => simpa [refreshFailure_token] using h
    | apiResp ec em tok =>
      by_cases hec : ec == 0
      · simp only [hec, Bool.not_true, Bool.false_eq_true, if_false]
        cases tok with
        | none => simpa [refreshFailure_token] using h
        | some t =>
          by_cases ht : t == ""
          · simpa [ht, refreshFailure_token] using h
          · simp only [ht, Bool.false_eq_true, if_false]
            simpa using ht
      · simp only [hec, Bool.not_false, if_true]
        simpa [refreshFailure_token] using h

lemma jsOrD_falsy {a : Option String} (h : jsTruthyOpt a = false) (d : String) :
    jsOrD a d = d := by
  cases a with
  | none => rfl
  | some s =>
    have hs : s = "" := by
      simp only [jsTruthyOpt] at h
      simpa using h
    simp [jsOrD, hs]

lemma jsOrO_falsy {a : Option String} (h : jsTruthyOpt a = false) (b : Option String) :
    jsOrO a b = b := by
  simp [jsOrO, h]

/-- When refresh is enabled and the single-flight guard is passed, the refresh
either takes the failure branch (for any failing outcome) or stores a truthy
token and schedules the 25-minute refresh. -/
lemma refresh_cases (cfg : Config) (st : TokenState) (now : String)
    (o : TokenFetchOutcome) (isRetry : Bool)
    (hEn : cfg.TOKEN_REFRESH_ENABLED = true)
    (hG : st.isRefreshing = false ∨ isRetry = true) :
    (fetchFails o = true ∧ refreshYeastarToken isRetry cfg st now o = refreshFailure st) ∨
    (∃ t em, o = TokenFetchOutcome.apiResp 0 em (some t) ∧ t ≠ "" ∧
      refreshYeastarToken isRetry cfg st now o =
        ({ token := t, lastRefresh := some now, refreshAttempts := 0,
           isRefreshing := false },
         [Scheduled.refreshAt (25 * 60 * 1000) false])) := by
  have hguard : (st.isRefreshing && !isRetry) = false := by
    rcases hG with h | h <;> simp [h]
  unfold refreshYeastarToken
  simp only [hEn, Bool.not_true, Bool.false_eq_true, if_false, hguard, if_true]
  cases o with
  | timeout => exact Or.inl ⟨rfl, rfl⟩
  | httpErr s b => exact Or.inl ⟨rfl, rfl⟩
  | apiResp ec em tok =>
    by_cases hec : ec == 0
    · have hec0 : ec = 0 := by simpa using hec
      subst hec0
      simp only [hec, Bool.not_true, Bool.false_eq_true, if_false]
      cases tok with
      | none =>
        exact Or.inl ⟨by simp [fetchFails], rfl⟩
      | some t =>
        by_cases ht : t == ""
        · simp only [ht, if_true]
          refine Or.inl ⟨by simp [fetchFails, ht], ?_⟩
          first
          | rfl
          | trivial
        · simp only [ht, Bool.false_eq_true, if_false]
          exact Or.inr ⟨t, em, rfl, by simpa using ht, rfl⟩
    · simp only [hec, Bool.not_false, if_true]
      refine Or.inl ⟨by simp [fetchFails, hec], ?_⟩
      first
      | rfl
      | trivial

/-- C10: when `TOKEN_REFRESH_ENABLED` is false, every call to
`refreshYeastarToken` returns immediately, leaves the whole token state
(token, last-refresh timestamp, failure counter, in-progress flag) unchanged
and schedules nothing. -/
theorem refreshDisabledNoop (isRetry : Bool) (cfg : Config) (st : TokenState)
    (now : String) (outcome : TokenFetchOutcome)
    (h : cfg.TOKEN_REFRESH_ENABLED = false) :
    refreshYeastarToken isRetry cfg st now outcome = (st, []) := by
  simp [refreshYeastarToken, h]

/-- Witness for C10 at a concrete disabled configuration. -/
theorem refreshDisabledNoopWitness :
    refreshYeastarToken false cfgOff stIdle "T9"
      (TokenFetchOutcome.apiResp 0 "" (some "tokZ")) = (stIdle, []) :=
  refreshDisabledNoop false cfgOff stIdle "T9"
    (TokenFetchOutcome.apiResp 0 "" (some "tokZ")) rfl

/-- C9: with a recording filename present and the held token empty, the
download fails at once with No API token available, before any network
request (empty effect trace) and without touching the token state. -/
theorem noTokenFailsFast (cfg : Config) (cd : CallRecord) (st : TokenState)
    (now : String) (env : List Attempt)
    (hf : jsTruthyOpt cd.recording_filename = true) (ht : st.token = "") :
    downloadRecordingOpenAPI cfg cd st now env =
      (Except.error "No API token available", st, []) := by
  cases env with
  | nil => simp [downloadRecordingOpenAPI, downloadGo, hf, ht]
  | cons a r => simp [downloadRecordingOpenAPI, downloadGo, hf, ht]

/-- Witness for C9 at a concrete record and empty token. -/
theorem noTokenFailsFastWitness :
    downloadRecordingOpenAPI cfgOn cdRec stNoToken "T0" [attClean] =
      (Except.error "No API token available", stNoToken, []) :=
  noTokenFailsFast cfgOn cdRec stNoToken "T0" [attClean] (by decide) rfl

/-- C5: the single-flight guard. A non-retry call during an in-flight refresh
returns immediately without touching the state; every call that proceeds
(refresh enabled and guard passed) ends with `isRefreshing = false` whatever
the outcome; and a retry-flagged call proceeds even during an in-flight
refresh, storing the token its fetch returns. -/
theorem singleFlightGuard (cfg : Config) (st : TokenState) (now em : String)
    (outcome : TokenFetchOutcome) :
    (st.isRefreshing = true → refreshYeastarToken false cfg st now outcome = (st, []))
    ∧ (∀ isRetry : Bool, cfg.TOKEN_REFRESH_ENABLED = true →
        (st.isRefreshing = false ∨ isRetry = true) →
        (refreshYeastarToken isRetry cfg st now outcome).1.isRefreshing = false)
    ∧ (∀ t : String, cfg.TOKEN_REFRESH_ENABLED = true → t ≠ "" →
        (refreshYeastarToken true cfg st now
          (TokenFetchOutcome.apiResp 0 em (some t))).1.token = t) := by
  refine ⟨?_, ?_, ?_⟩
  · intro h
    by_cases hEn : cfg.TOKEN_REFRESH_ENABLED <;>
      simp [refreshYeastarToken, hEn, h]
  · intro isRetry hEn hG
    rcases refresh_cases cfg st now outcome isRetry hEn hG with ⟨_, heq⟩ | ⟨t, em2, _, _, heq⟩
    · rw [heq]; exact refreshFailure_isRefreshing st
    · rw [heq]
  · intro t hEn ht
    rcases refresh_cases cfg st now (TokenFetchOutcome.apiResp 0 em (some t)) true hEn
        (Or.inr rfl) with ⟨hfl, _⟩ | ⟨t2, em2, ho, _, heq⟩
    · exfalso
      apply ht
      simpa [fetchFails] using hfl
    · have ht2 : t2 = t := by
        injection ho with h1 h2 h3
        exact (Option.some_injective _ h3.symm)
      rw [heq, ht2]

/-- Witness for C5 at a busy state: the non-retry call is a no-op and the
retry-flagged call proceeds and clears the flag. -/
theorem singleFlightGuardWitness :
    refreshYeastarToken false cfgOn stBusy "T3" TokenFetchOutcome.timeout = (stBusy, []) ∧
    (refreshYeastarToken true cfgOn stBusy "T3" TokenFetchOutcome.timeout).1.isRefreshing = false ∧
    (refreshYeastarToken true cfgOn stBusy "T3"
      (TokenFetchOutcome.apiResp 0 "" (some "tokR"))).1.token = "tokR" :=
  ⟨(singleFlightGuard cfgOn stBusy "T3" "" TokenFetchOutcome.timeout).1 rfl,
   (singleFlightGuard cfgOn stBusy "T3" "" TokenFetchOutcome.timeout).2.1 true rfl (Or.inr rfl),
   (singleFlightGuard cfgOn stBusy "T3" "" TokenFetchOutcome.timeout).2.2 "tokR" rfl (by decide)⟩

/-- C4: refresh policy. A successful refresh (with the guard passed) stores
the new token, zeroes the failure counter and schedules exactly one refresh
25 minutes out; a failed refresh increments the counter and, below the
ceiling of 3, schedules exactly one retry at delay
`min(1000 * 2 ^ counter, 30000)`, which is strictly increasing over the
reachable counters and bounded by the 30-second cap; at the ceiling the
counter is reset to 0 and nothing is scheduled. -/
theorem credentialRefreshPolicy (isRetry : Bool) (cfg : Config) (st : TokenState)
    (now em t : String) (outcome : TokenFetchOutcome)
    (hEn : cfg.TOKEN_REFRESH_ENABLED = true)
    (hG : st.isRefreshing = false ∨ isRetry = true) :
    (t ≠ "" →
      refreshYeastarToken isRetry cfg st now (TokenFetchOutcome.apiResp 0 em (some t)) =
        ({ token := t, lastRefresh := some now, refreshAttempts := 0,
           isRefreshing := false },
         [Scheduled.refreshAt (25 * 60 * 1000) false]))
    ∧ (fetchFails outcome = true →
        refreshYeastarToken isRetry cfg st now outcome =
          if st.refreshAttempts + 1 < 3 then
            ({ st with refreshAttempts := st.refreshAttempts + 1, isRefreshing := false },
             [Scheduled.refreshAt (min (1000 * 2 ^ (st.refreshAttempts + 1)) 30000) true])
          else
            ({ st with refreshAttempts := 0, isRefreshing := false }, []))
    ∧ (∀ a b : Nat, a < b → b < 3 →
        min (1000 * 2 ^ a) 30000 < min (1000 * 2 ^ b) 30000)
    ∧ (∀ a : Nat, min (1000 * 2 ^ a) 30000 ≤ 30000) := by
  refine ⟨?_, ?_, ?_, ?_⟩
  · intro ht
    rcases refresh_cases cfg st now (TokenFetchOutcome.apiResp 0 em (some t)) isRetry hEn hG
      with ⟨hfl, _⟩ | ⟨t2, em2, ho, _, heq⟩
    · exfalso
      apply ht
      simpa [fetchFails] using hfl
    · have ht2 : t2 = t := by
        injection ho with h1 h2 h3
        exact (Option.some_injective _ h3.symm)
      rw [heq, ht2]
  · intro hFail
    rcases refresh_cases cfg st now outcome isRetry hEn hG
      with ⟨_, heq⟩ | ⟨t2, em2, ho, ht2, _⟩
    · rw [heq]
      unfold refreshFailure
      rfl
    · exfalso
      apply ht2
      subst ho
      simpa [fetchFails] using hFail
  · intro a b hab hb3
    have hb : b ≤ 2 := by omega
    interval_cases b <;> interval_cases a <;> decide
  · intro a
    exact min_le_right _ _

/-- Witness for C4: success resets and schedules the 25-minute refresh; a
first failure increments the counter and schedules a 2000 ms retry. -/
theorem credentialRefreshPolicyWitness :
    refreshYeastarToken false cfgOn stIdle "T1"
        (TokenFetchOutcome.apiResp 0 "" (some "tokNew")) =
      ({ token := "tokNew", lastRefresh := some "T1", refreshAttempts := 0,
         isRefreshing := false },
       [Scheduled.refreshAt (25 * 60 * 1000) false]) ∧
    refreshYeastarToken false cfgOn stIdle "T1" (TokenFetchOutcome.httpErr 500 "boom") =
      ({ token := "tok0", lastRefresh := none, refreshAttempts := 1,
         isRefreshing := false },
       [Scheduled.refreshAt 2000 true]) := by
  constructor
  · exact (credentialRefreshPolicy false cfgOn stIdle "T1" "" "tokNew"
      TokenFetchOutcome.timeout rfl (Or.inl rfl)).1 (by decide)
  · have h := (credentialRefreshPolicy false cfgOn stIdle "T1" "" ""
      (TokenFetchOutcome.httpErr 500 "boom") rfl (Or.inl rfl)).2.1 rfl
    simpa using h

/-- C2 counterexample: for the `part_003` normalizer, a payload whose only
recording reference arrives under the alias key `recordingfile` yields a
record with a non-empty extracted `recording_url` but `hasRecording = false`,
refuting the claimed iff between `hasRecording` and non-emptiness of the
extracted recording-reference fields. -/
theorem recordingInvariantCx :
    ¬(((extractCallData3 pAlias "T").hasRecording = true) ↔
      (jsTruthyOpt (extractCallData3 pAlias "T").recording_url = true ∨
       jsTruthyOpt (extractCallData3 pAlias "T").recording_id = true)) := by
  decide

/-- C2 amended: in `src/server.js` (and `part_002`) `hasRecording` equals the
truthiness of the extracted recording filename — the only recording-reference
field that normalizer extracts — so the iff holds there; in `part_003`,
`hasRecording` equals the truthiness of the raw payload keys
`recording_url`/`recording_id`, not of the alias-resolved extracted fields. -/
theorem recordingInvariantAmended :
    (∀ (p : Payload) (now : String),
      (extractCallData p now).hasRecording =
        jsTruthyOpt (extractCallData p now).recording_filename) ∧
    (∀ (p : Payload) (now : String),
      (extractCallData3 p now).hasRecording =
        (jsTruthyOpt p.recording_url || jsTruthyOpt p.recording_id)) := by
  constructor <;> intro p now <;> rfl

/-- C3 counterexample: the downloaded-buffer validation in `src/server.js`
accepts a 26 MiB buffer (26 * 1024 * 1024 = 27262976 bytes), which exceeds
the claimed 25 MiB (26214400 bytes) maximum, so no over-size error is raised
where the claim requires one. -/
theorem audioMaxSizeCx :
    validateAudioInline { len := 27262976, utf8 := "" } =
      Except.ok { len := 27262976, utf8 := "" } ∧ 26214400 < 27262976 := by
  exact ⟨rfl, by norm_num⟩

/-- C3 amended: the inline validation of `src/server.js`/`part_002` raises
exactly for buffers under 1000 bytes, with the buffer's decoded body text in
the message, and accepts every larger buffer with no maximum check; the
25-MiB maximum exists only in the README v3.1 variant's
`validateAudioBuffer`, which rejects under 1000 and over 26214400 bytes and
accepts every length in between, but whose undersized error message carries
sizes, not the body text. -/
theorem audioValidationAmended (buf : Buffer) :
    (buf.len < 1000 →
      validateAudioInline buf = Except.error ("Invalid audio file: " ++ buf.utf8)) ∧
    (1000 ≤ buf.len → validateAudioInline buf = Except.ok buf) ∧
    (buf.len < 1000 →
      validateAudioBuffer 1000 26214400 buf =
        Except.error ("Audio file too small: " ++ toString buf.len ++
          " bytes (minimum: " ++ toString 1000 ++ ")")) ∧
    (26214400 < buf.len →
      validateAudioBuffer 1000 26214400 buf =
        Except.error ("Audio file too large: " ++ toString buf.len ++
          " bytes (maximum: " ++ toString 26214400 ++ ")")) ∧
    (1000 ≤ buf.len → buf.len ≤ 26214400 →
      validateAudioBuffer 1000 26214400 buf = Except.ok ()) := by
  refine ⟨?_, ?_, ?_, ?_, ?_⟩
  · intro h
    unfold validateAudioInline
    rw [if_pos h]
  · intro h
    unfold validateAudioInline
    rw [if_neg (by omega)]
  · intro h
    unfold validateAudioBuffer
    rw [if_pos h]
  · intro h
    unfold validateAudioBuffer
    rw [if_neg (by omega), if_pos (by omega)]
  · intro h1 h2
    unfold validateAudioBuffer
    rw [if_neg (by omega), if_neg (by omega)]

/-- Witness for C3 amended: a 500-byte buffer is rejected with its body text
by the inline check, and a 2000-byte buffer passes the README variant's
min/max validator. -/
theorem audioValidationAmendedWitness :
    validateAudioInline { len := 500, utf8 := "server error body" } =
      Except.error ("Invalid audio file: " ++ "server error body") ∧
    validateAudioBuffer 1000 26214400 { len := 2000, utf8 := "" } = Except.ok () :=
  ⟨(audioValidationAmended { len := 500, utf8 := "server error body" }).1 (by norm_num),
   (audioValidationAmended { len := 2000, utf8 := "" }).2.2.2.2 (by norm_num) (by norm_num)⟩

/-- C7: a payload with every recording-reference key (`recording`,
`recordingfile`) falsy makes the webhook handler answer success with the
call identifier, leave the token state untouched, and make no downstream
calls at all — no token refresh, no download steps, no transcription, no
forwarding (empty effect trace). -/
theorem noRecordingShortCircuit (cfg : Config) (st : TokenState) (p : Payload)
    (now : String) (env : List Attempt) (tro : Except String Transcription)
    (fwo : Except String Unit)
    (h1 : jsTruthyOpt p.recording = false) (h2 : jsTruthyOpt p.recordingfile = false) :
    handleWebhook cfg st p now env tro fwo =
      ({ httpStatus := 200, success := true, message := "No recording to process",
         call_id := (extractCallData p now).call_id }, st, []) := by
  have hrec : (extractCallData p now).hasRecording = false := by
    simp [extractCallData, jsOrO_falsy h1, jsOrO_falsy h2, jsTruthyOpt]
  unfold handleWebhook
  simp [hrec]

/-- Witness for C7 at the all-absent payload. -/
theorem noRecordingShortCircuitWitness :
    handleWebhook cfgOn stIdle emptyPayload "T2" [attClean] (Except.ok trEx)
      (Except.ok ()) =
      ({ httpStatus := 200, success := true, message := "No recording to process",
         call_id := "unknown" }, stIdle, []) := by
  have h := noRecordingShortCircuit cfgOn stIdle emptyPayload "T2" [attClean]
    (Except.ok trEx) (Except.ok ()) rfl rfl
  simpa using h

/-- C8: the normalizer is a total pure function (it is defined as one, so it
raises nothing and mutates nothing), and every attribute whose candidate keys
are all falsy degrades to its stated default: identifier unknown, durations
0, numbers empty, status ANSWERED, type Unknown, timestamps now, trunk empty. -/
theorem normalizerDefaults (p : Payload) (now : String) :
    (jsTruthyOpt p.call_id = false → jsTruthyOpt p.callid = false →
      jsTruthyOpt p.uniqueid = false → (extractCallData p now).call_id = "unknown") ∧
    (jsTruthyOpt p.call_duration = false → jsTruthyOpt p.duration = false →
      jsTruthyOpt p.billsec = false → (extractCallData p now).duration = "0") ∧
    (jsTruthyOpt p.talk_duration = false → (extractCallData p now).talk_duration = "0") ∧
    (jsTruthyOpt p.call_from = false → jsTruthyOpt p.caller_number = false →
      jsTruthyOpt p.src = false → (extractCallData p now).caller_number = "") ∧
    (jsTruthyOpt p.call_to = false → jsTruthyOpt p.callee_number = false →
      jsTruthyOpt p.dst = false → (extractCallData p now).callee_number = "") ∧
    (jsTruthyOpt p.status = false → (extractCallData p now).status = "ANSWERED") ∧
    (jsTruthyOpt p.type = false → (extractCallData p now).call_type = "Unknown") ∧
    (jsTruthyOpt p.time_start = false → jsTruthyOpt p.start_time = false →
      (extractCallData p now).start_time = now) ∧
    (jsTruthyOpt p.end_time = false → (extractCallData p now).end_time = now) ∧
    (jsTruthyOpt p.dst_trunk_name = false → jsTruthyOpt p.src_trunk_name = false →
      (extractCallData p now).trunk_name = "") := by
  refine ⟨?_, ?_, ?_, ?_, ?_, ?_, ?_, ?_, ?_, ?_⟩
  · intro h1 h2 h3
    simp [extractCallData, jsOrD_falsy h1, jsOrD_falsy h2, jsOrD_falsy h3]
  · intro h1 h2 h3
    simp [extractCallData, jsOrD_falsy h1, jsOrD_falsy h2, jsOrD_falsy h3]
  · intro h1
    simp [extractCallData, jsOrD_falsy h1]
  · intro h1 h2 h3
    simp [extractCallData, jsOrD_falsy h1, jsOrD_falsy h2, jsOrD_falsy h3]
  · intro h1 h2 h3
    simp [extractCallData, jsOrD_falsy h1, jsOrD_falsy h2, jsOrD_falsy h3]
  · intro h1
    simp [extractCallData, jsOrD_falsy h1]
  · intro h1
    simp [extractCallData, jsOrD_falsy h1]
  · intro h1 h2
    simp [extractCallData, jsOrD_falsy h1, jsOrD_falsy h2]
  · intro h1
    simp [extractCallData, jsOrD_falsy h1]
  · intro h1 h2
    simp [extractCallData, jsOrD_falsy h1, jsOrD_falsy h2]

/-- Witness for C8 at the all-absent payload: every defaulted attribute. -/
theorem normalizerDefaultsWitness :
    (extractCallData emptyPayload "NOW").call_id = "unknown" ∧
    (extractCallData emptyPayload "NOW").duration = "0" ∧
    (extractCallData emptyPayload "NOW").talk_duration = "0" ∧
    (extractCallData emptyPayload "NOW").caller_number = "" ∧
    (extractCallData emptyPayload "NOW").callee_number = "" ∧
    (extractCallData emptyPayload "NOW").status = "ANSWERED" ∧
    (extractCallData emptyPayload "NOW").call_type = "Unknown" ∧
    (extractCallData emptyPayload "NOW").start_time = "NOW" ∧
    (extractCallData emptyPayload "NOW").end_time = "NOW" ∧
    (extractCallData emptyPayload "NOW").trunk_name = "" := by
  have h := normalizerDefaults emptyPayload "NOW"
  exact ⟨h.1 rfl rfl rfl, h.2.1 rfl rfl rfl, h.2.2.1 rfl, h.2.2.2.1 rfl rfl rfl,
    h.2.2.2.2.1 rfl rfl rfl, h.2.2.2.2.2.1 rfl, h.2.2.2.2.2.2.1 rfl,
    h.2.2.2.2.2.2.2.1 rfl rfl, h.2.2.2.2.2.2.2.2.1 rfl,
    h.2.2.2.2.2.2.2.2.2 rfl rfl⟩

/-- One pass of the download whose step 1 is a token-expiry signal, with
refresh enabled: the function refreshes and re-enters itself on the rest of
the environment, prepending the step-1 request and the refresh request to
the trace. -/
lemma downloadGo_expiry (cfg : Config) (cd : CallRecord) (now : String)
    (st : TokenState) (att : Attempt) (rest : List Attempt)
    (hf : jsTruthyOpt cd.recording_filename = true) (ht : st.token ≠ "")
    (hEn : cfg.TOKEN_REFRESH_ENABLED = true) (hE : isExpiry1 att.step1 = true) :
    downloadGo cfg cd now st (att :: rest) =
      ((downloadGo cfg cd now (refreshYeastarToken true cfg st now att.refreshOutcome).1 rest).1,
       (downloadGo cfg cd now (refreshYeastarToken true cfg st now att.refreshOutcome).1 rest).2.1,
       Effect.step1Request st.token :: Effect.tokenRefreshRequest ::
         (downloadGo cfg cd now (refreshYeastarToken true cfg st now att.refreshOutcome).1 rest).2.2) := by
  obtain ⟨s1, ro, s2⟩ := att
  have ht2 : (st.token == "") = false := by simpa using ht
  cases s1 with
  | timeout => simp [isExpiry1] at hE
  | httpErr status body =>
    simp only [isExpiry1] at hE
    simp only [downloadGo, hf, Bool.not_true, Bool.false_eq_true, if_false, ht2,
      hE, if_true, hEn]
  | ok ec em url =>
    simp only [isExpiry1] at hE
    have hec : ec = some 10004 := by simpa using hE
    subst hec
    have hnum : jsTruthyNumOpt (some 10004) = true := rfl
    have hbeq : (((some 10004 : Option Nat) == some 10004) && cfg.TOKEN_REFRESH_ENABLED)
        = true := by
      rw [hEn]
      rfl
    simp only [downloadGo, hf, Bool.not_true, Bool.false_eq_true, if_false, ht2,
      hnum, if_true, hbeq]

/-- One pass of the download whose step 1 resolves a usable URL and whose
step 2 delivers a size-valid buffer: the call returns the buffer, leaves the
token state untouched, and the trace is the two requests. -/
lemma downloadGo_clean (cfg : Config) (cd : CallRecord) (now : String)
    (st : TokenState) (att : Attempt) (rest : List Attempt)
    (hf : jsTruthyOpt cd.recording_filename = true) (ht : st.token ≠ "")
    (hS : isCleanSuccess att = true) :
    downloadGo cfg cd now st (att :: rest) =
      (Except.ok (successBuf att), st,
       [Effect.step1Request st.token, Effect.step2Request st.token]) := by
  obtain ⟨s1, ro, s2⟩ := att
  have ht2 : (st.token == "") = false := by simpa using ht
  cases s1 with
  | timeout => simp [isCleanSuccess] at hS
  | httpErr a b => simp [isCleanSuccess] at hS
  | ok ec em url =>
    cases s2 with
    | timeout => simp [isCleanSuccess] at hS
    | httpErr a b => simp [isCleanSuccess] at hS
    | ok buf =>
      simp only [isCleanSuccess, Bool.and_eq_true] at hS
      obtain ⟨⟨hec, hurl⟩, hlen⟩ := hS
      have hec2 : jsTruthyNumOpt ec = false := by simpa using hec
      have hlen2 : 1000 ≤ buf.len := by simpa using hlen
      have hval : validateAudioInline buf = Except.ok buf := by
        unfold validateAudioInline
        rw [if_neg (by omega)]
      simp only [downloadGo, hf, Bool.not_true, Bool.false_eq_true, if_false, ht2,
        hec2, hurl, if_true, hval, successBuf]

/-- C1 counterexample: with auto-refresh enabled, an environment answering two
consecutive token-expiry signals and then a valid download makes
`downloadRecordingOpenAPI` succeed after a third pass (three step-1 requests),
whereas the claim requires the error to be surfaced after the single retry
also fails with an expiry signal. -/
theorem downloadRetryUnboundedCx :
    (downloadRecordingOpenAPI cfgOn cdRec stIdle "T" [attExpiry, attExpiry, attClean]).1 =
      Except.ok bufOk ∧
    countStep1 ((downloadRecordingOpenAPI cfgOn cdRec stIdle "T"
      [attExpiry, attExpiry, attClean]).2.2) = 3 := by
  constructor <;> rfl

/-- C1 amended: on every step-1 token-expiry signal (HTTP 401, body containing
TOKEN EXPIRED, or in-body errcode 10004) with auto-refresh enabled, the
retriever refreshes credentials and retries the entire two-step sequence —
repeatedly, once per consecutive expiry signal with no single-retry bound —
succeeding as soon as a pass completes cleanly: after `n` expiry signals
followed by a clean pass, it returns that pass's buffer having issued exactly
`n + 1` step-1 requests. -/
theorem downloadRetryAmended (cfg : Config) (cd : CallRecord) (now : String) :
    ∀ (pre : List Attempt) (attS : Attempt) (rest : List Attempt) (st : TokenState),
      cfg.TOKEN_REFRESH_ENABLED = true →
      jsTruthyOpt cd.recording_filename = true →
      st.token ≠ "" →
      (∀ att ∈ pre, isExpiry1 att.step1 = true) →
      isCleanSuccess attS = true →
      (downloadGo cfg cd now st (pre ++ attS :: rest)).1 = Except.ok (successBuf attS) ∧
      countStep1 (downloadGo cfg cd now st (pre ++ attS :: rest)).2.2 = pre.length + 1 := by
  intro pre
  induction pre with
  | nil =>
    intro attS rest st hEn hf ht hexp hS
    rw [List.nil_append, downloadGo_clean cfg cd now st attS rest hf ht hS]
    exact ⟨rfl, rfl⟩
  | cons att pre2 ih =>
    intro attS rest st hEn hf ht hexp hS
    have hattE : isExpiry1 att.step1 = true := hexp att (List.mem_cons_self att pre2)
    have hexp2 : ∀ a ∈ pre2, isExpiry1 a.step1 = true :=
      fun a ha => hexp a (List.mem_cons_of_mem att ha)
    have ht1 : (refreshYeastarToken true cfg st now att.refreshOutcome).1.token ≠ "" :=
      refresh_preserves_token_ne cfg st now att.refreshOutcome ht
    have hih := ih attS rest (refreshYeastarToken true cfg st now att.refreshOutcome).1
      hEn hf ht1 hexp2 hS
    rw [List.cons_append,
      downloadGo_expiry cfg cd now st att (pre2 ++ attS :: rest) hf ht hEn hattE]
    refine ⟨hih.1, ?_⟩
    simp only [countStep1]
    rw [hih.2]
    simp

/-- Witness for C1 amended: one expiry signal then a clean pass gives the
clean pass's buffer with exactly two step-1 requests. -/
theorem downloadRetryAmendedWitness :
    (downloadGo cfgOn cdRec "T" stIdle ([attExpiry] ++ attClean :: [])).1 =
      Except.ok (successBuf attClean) ∧
    countStep1 ((downloadGo cfgOn cdRec "T" stIdle ([attExpiry] ++ attClean :: [])).2.2) =
      [attExpiry].length + 1 :=
  downloadRetryAmended cfgOn cdRec "T" [attExpiry] attClean [] stIdle rfl (by decide)
    (by decide) (by intro a ha; rw [List.mem_singleton] at ha; subst ha; decide)
    (by decide)

/-- Loop invariant of `retryFrom`: starting at attempt `a` with enough
iterations left, if the next `j` invocations fail retryably and invocation
`a + j` succeeds within the attempt budget, the loop returns that success
after exactly `j + 1` invocations. -/
lemma retryFrom_succeeds {α : Type} (op : Nat → Except String α) (name : String)
    (maxR : Nat) :
    ∀ (j a r : Nat) (v : α) (le : String),
      a + j ≤ maxR → j + 1 ≤ r →
      (∀ i, a ≤ i → i < a + j →
        ∃ e, op i = Except.error e ∧ nonRetryableMsg e = false) →
      op (a + j) = Except.ok v →
      (retryFrom op name maxR a r le).1 = Except.ok v ∧
      (retryFrom op name maxR a r le).2.1 = j + 1 := by
  intro j
  induction j with
  | zero =>
    intro a r v le hle hr hfail hok
    match r, hr with
    | r2 + 1, _ =>
      rw [Nat.add_zero] at hok
      simp only [retryFrom, hok]
      refine ⟨?_, ?_⟩ <;>
        first
        | rfl
        | trivial
  | succ n ih =>
    intro a r v le hle hr hfail hok
    match r, hr with
    | r2 + 1, hr =>
      obtain ⟨e, hoe, hnr⟩ := hfail a (Nat.le_refl a) (by omega)
      have ha : a < maxR := by omega
      have hih := ih (a + 1) r2 v e (by omega) (by omega)
        (fun i h1 h2 => hfail i (by omega) (by omega))
        (by rw [show a + 1 + n = a + (n + 1) from by omega]; exact hok)
      simp only [retryFrom, hoe, if_pos ha, hnr, Bool.false_eq_true, if_false]
      exact ⟨hih.1, by rw [hih.2]⟩

/-- C6: the retry orchestrator. An operation that fails `k` times with
retryable errors and then succeeds, under an attempt budget of at least
`k + 1`, yields the success result after exactly `k + 1` invocations; an
operation whose first error message matches the non-retryable allowlist is
invoked exactly once and its error is re-raised as-is (for any budget of at
least 2, which the source default `MAX_RETRIES = 3` satisfies). -/
theorem retryOrchestratorSpec {α : Type} (op : Nat → Except String α) (name : String)
    (maxR k : Nat) (v : α) (e : String) :
    ((k + 1 ≤ maxR) →
      (∀ i, 1 ≤ i → i ≤ k →
        ∃ msg, op i = Except.error msg ∧ nonRetryableMsg msg = false) →
      op (k + 1) = Except.ok v →
      (retryOperation op name maxR).1 = Except.ok v ∧
      (retryOperation op name maxR).2.1 = k + 1)
    ∧ ((2 ≤ maxR) → op 1 = Except.error e → nonRetryableMsg e = true →
        retryOperation op name maxR = (Except.error e, 1, [])) := by
  constructor
  · intro hmax hfail hok
    have h := retryFrom_succeeds op name maxR k 1 maxR v "" (by omega) (by omega)
      (fun i h1 h2 => hfail i h1 (by omega))
      (by rw [show 1 + k = k + 1 by omega]; exact hok)
    exact h
  · intro hmax hop hnr
    obtain ⟨m, rfl⟩ : ∃ m, maxR = m + 2 := ⟨maxR - 2, by omega⟩
    unfold retryOperation
    simp only [retryFrom, hop]
    rw [if_pos (by omega : 1 < m + 2)]
    simp [hnr]

/-- Witness for C6: the flaky operation (two retryable failures then success)
succeeds on the third invocation under a budget of 3, and the
configuration-missing operation is re-raised after a single invocation. -/
theorem retryOrchestratorSpecWitness :
    (retryOperation opFlaky "Download recording 123" 3).1 = Except.ok 42 ∧
    (retryOperation opFlaky "Download recording 123" 3).2.1 = 3 ∧
    retryOperation opMissingKey "Transcribe audio 123" 3 =
      (Except.error "OPENAI_API_KEY not configured", 1, []) := by
  have h1 := (retryOrchestratorSpec opFlaky "Download recording 123" 3 2 42 "").1
    (by omega)
    (by
      intro i hi1 hi2
      refine ⟨"HTTP 500 from server", ?_, by decide⟩
      simp [opFlaky, hi2])
    rfl
  have h2 := (retryOrchestratorSpec opMissingKey "Transcribe audio 123" 3 0 0
      "OPENAI_API_KEY not configured").2
    (by omega) rfl (by decide)
  exact ⟨h1.1, h1.2, h2⟩

end YeastarBridge
